import Mathlib

/-!
Shallow embedding of `src/SurfsUp/app.py` (a small Flask + SQLAlchemy climate
API) for checking the natural-language specification against the code.

Modelling conventions:
* A `Measurement` row is a `Row` (station id, date string, nullable
  precipitation, temperature).  SQLite `REAL` values are modelled by `ℚ`
  (exact arithmetic); SQLite `TEXT` date comparison is Lean `String` order
  (both compare byte/character-wise on ASCII digits and dashes).
* Each Flask route becomes a pure function of the dataset plus an optional
  pending storage fault: `fault = some e` means the first database query of
  the request raises `SQLAlchemyError` with message `e`.
* The returned value is a `Run`: the route outcome plus whether
  `session.close()` ran before the handler exited (the `finally:` blocks run
  on every path that enters the corresponding `try:`, including uncaught
  exceptions; `abort(400)` in `start`/`start_end` is raised before `try:`).
* `datetime.strptime(s, "%Y-%m-%d")` is modelled character-for-character
  after CPython `_strptime`: the format compiles to the regex
  `(?P<Y>\d\d\d\d)-(?P<m>1[0-2]|0[1-9]|[1-9])-(?P<d>3[01]|[12]\d|0[1-9]|[1-9])`,
  alternatives tried left to right with backtracking, then a
  "unconverted data remains" check, then calendar validation by
  `datetime` (year at least `MINYEAR = 1`, day at most the month length).
* `pd.to_datetime` on the dataset date strings is modelled as strict
  ISO `YYYY-MM-DD` parsing (the dataset invariant); `pd.Timedelta(days=365)`
  subtraction and `strftime("%Y-%m-%d")` are modelled by exact proleptic
  Gregorian day arithmetic.  The nanosecond range limits of pandas
  timestamps are outside the model.
-/

namespace SurfsUp

/-! ### Characters and digits -/

/-- Numeric value of an ASCII digit character. -/
def digitVal (c : Char) : Nat := c.toNat - 48

/-- Is `c` an ASCII digit? -/
def isDigitChar (c : Char) : Bool := 48 ≤ c.toNat && c.toNat ≤ 57

/-! ### The `strptime("%Y-%m-%d")` model (`is_valid_date`) -/

/-- `%Y` compiles to `\d\d\d\d`: exactly four digits. -/
def year4 : List Char → Option (Nat × List Char)
  | a :: b :: c :: d :: rest =>
    if isDigitChar a && isDigitChar b && isDigitChar c && isDigitChar d then
      some (1000 * digitVal a + 100 * digitVal b + 10 * digitVal c + digitVal d, rest)
    else none
  | _ => none

/-- `%m` compiles to `1[0-2]|0[1-9]|[1-9]`: the ordered list of ways the
month group can match a prefix of the input (regex alternation order). -/
def monthAlts : List Char → List (Nat × List Char)
  | c1 :: c2 :: rest =>
    (if c1 = '1' ∧ ('0' ≤ c2 ∧ c2 ≤ '2') then [(10 + digitVal c2, rest)] else []) ++
    (if c1 = '0' ∧ ('1' ≤ c2 ∧ c2 ≤ '9') then [(digitVal c2, rest)] else []) ++
    (if '1' ≤ c1 ∧ c1 ≤ '9' then [(digitVal c1, c2 :: rest)] else [])
  | [c1] => if '1' ≤ c1 ∧ c1 ≤ '9' then [(digitVal c1, [])] else []
  | [] => []

/-- `%d` compiles to `3[01]|[12]\d|0[1-9]|[1-9]`: ordered alternatives. -/
def dayAlts : List Char → List (Nat × List Char)
  | c1 :: c2 :: rest =>
    (if c1 = '3' ∧ (c2 = '0' ∨ c2 = '1') then [(30 + digitVal c2, rest)] else []) ++
    (if (c1 = '1' ∨ c1 = '2') ∧ ('0' ≤ c2 ∧ c2 ≤ '9') then
      [(10 * digitVal c1 + digitVal c2, rest)] else []) ++
    (if c1 = '0' ∧ ('1' ≤ c2 ∧ c2 ≤ '9') then [(digitVal c2, rest)] else []) ++
    (if '1' ≤ c1 ∧ c1 ≤ '9' then [(digitVal c1, c2 :: rest)] else [])
  | [c1] => if '1' ≤ c1 ∧ c1 ≤ '9' then [(digitVal c1, [])] else []
  | [] => []

/-- After a month candidate: the literal `-` and then the day group.  The day
group is last in the pattern, so its first locally matching alternative is
final; if no day alternative matches, the month candidate is backtracked. -/
def matchDashDay (m : Nat) : List Char → Option (Nat × Nat × List Char)
  | '-' :: rest => (dayAlts rest).head?.map (fun p => (m, p.1, p.2))
  | _ => none

/-- The whole regex match of `%Y-%m-%d` against `s`: year, `-`, then the
month alternatives in order, backtracking into the rest of the pattern.
Returns year, month, day and the unconsumed suffix. -/
def strptimeYMD (s : String) : Option (Nat × Nat × Nat × List Char) :=
  match year4 s.data with
  | none => none
  | some (y, rest) =>
    match rest with
    | '-' :: rest2 =>
      ((monthAlts rest2).filterMap (fun mp => matchDashDay mp.1 mp.2)).head?.map
        (fun q => (y, q))
    | _ => none

/-- Is `y` a Gregorian leap year (as `calendar`/`datetime` decide it)? -/
def isLeapYear (y : Nat) : Bool :=
  (y % 4 == 0 && y % 100 != 0) || y % 400 == 0

/-- Number of days of month `m` of year `y`. -/
def daysInMonth (y m : Nat) : Nat :=
  if m = 2 then (if isLeapYear y then 29 else 28)
  else if m = 4 ∨ m = 6 ∨ m = 9 ∨ m = 11 then 30
  else 31

/-- `is_valid_date` from `app.py`: `datetime.strptime(date_str, "%Y-%m-%d")`
succeeds iff the regex matches, nothing is left unconverted, and
`datetime(year, month, day)` is constructible (`MINYEAR = 1`, day within the
month; the regex already bounds month to 1..12 and day to 1..31). -/
def is_valid_date (date_str : String) : Bool :=
  match strptimeYMD date_str with
  | some (y, m, d, leftover) => leftover.isEmpty && 1 ≤ y && d ≤ daysInMonth y m
  | none => false

/-! ### Gregorian day arithmetic (model of `pd.to_datetime` / `Timedelta`) -/

/-- Days since 0000-03-01 of the proleptic Gregorian date `(y, m, d)`
(the standard civil-from-days bijection, restricted to `y ≥ 1`). -/
def daysFromCivil (y m d : Nat) : Nat :=
  let y2 := y - (if m ≤ 2 then 1 else 0)
  let era := y2 / 400
  let yoe := y2 % 400
  let mp := if m ≤ 2 then m + 9 else m - 3
  let doy := (153 * mp + 2) / 5 + (d - 1)
  let doe := yoe * 365 + yoe / 4 - yoe / 100 + doy
  era * 146097 + doe

/-- Inverse of `daysFromCivil`. -/
def civilFromDays (g : Nat) : Nat × Nat × Nat :=
  let era := g / 146097
  let doe := g % 146097
  let yoe := (doe - doe / 1460 + doe / 36524 - doe / 146096) / 365
  let doy := doe - (365 * yoe + yoe / 4 - yoe / 100)
  let mp := (5 * doy + 2) / 153
  let d := doy - (153 * mp + 2) / 5 + 1
  let m := if mp < 10 then mp + 3 else mp - 9
  (yoe + era * 400 + (if m ≤ 2 then 1 else 0), m, d)

/-- Zero-pad a number to two digits (`strftime` month/day field). -/
def pad2 (n : Nat) : String := if n < 10 then "0" ++ toString n else toString n

/-- Zero-pad a number to four digits (`strftime` year field). -/
def pad4 (n : Nat) : String :=
  if n < 10 then "000" ++ toString n
  else if n < 100 then "00" ++ toString n
  else if n < 1000 then "0" ++ toString n
  else toString n

/-- `strftime("%Y-%m-%d")`. -/
def fmtYMD : Nat × Nat × Nat → String
  | (y, m, d) => pad4 y ++ "-" ++ pad2 m ++ "-" ++ pad2 d

/-- Strict ISO `YYYY-MM-DD` parse of a dataset date string (the form
`pd.to_datetime` receives under the dataset invariant of spec section 3). -/
def parseISO (s : String) : Option (Nat × Nat × Nat) :=
  match s.data with
  | [y1, y2, y3, y4, '-', m1, m2, '-', d1, d2] =>
    if isDigitChar y1 && isDigitChar y2 && isDigitChar y3 && isDigitChar y4 &&
       isDigitChar m1 && isDigitChar m2 && isDigitChar d1 && isDigitChar d2 then
      let y := 1000 * digitVal y1 + 100 * digitVal y2 + 10 * digitVal y3 + digitVal y4
      let m := 10 * digitVal m1 + digitVal m2
      let d := 10 * digitVal d1 + digitVal d2
      if 1 ≤ y ∧ 1 ≤ m ∧ m ≤ 12 ∧ 1 ≤ d ∧ d ≤ daysInMonth y m then some (y, m, d)
      else none
    else none
  | _ => none

/-- The exact `YYYY-MM-DD` format of the spec (four digit year, two digit
month and day, a real calendar date).  Spec-side definition, used to compare
the spec wording with the behaviour of `is_valid_date`. -/
def isCanonicalYMD (s : String) : Bool := (parseISO s).isSome

/-- `twelve_month_prior_str` of `app.py`: parse the date string, subtract
`pd.Timedelta(days=365)`, format back as `YYYY-MM-DD`.  `none` models the
paths on which the date library raises (unparseable input, or a result
before year 1). -/
def cutoff365 (s : String) : Option String :=
  match parseISO s with
  | none => none
  | some (y, m, d) =>
    let g := daysFromCivil y m d
    if g < 365 then none else some (fmtYMD (civilFromDays (g - 365)))

/-! ### Data model -/

/-- One row of the reflected `measurement` table, with the columns the five
routes read.  `prcp` is nullable in the dataset, `tobs` is the temperature. -/
structure Row where
  station : String
  date : String
  prcp : Option ℚ
  tobs : ℚ
deriving DecidableEq, Repr

/-! ### Python `dict` built by a comprehension -/

/-- One `d[k] = v` step on an insertion-ordered association list: Python
dicts keep the position of the first insertion of a key and overwrite its
value on rewrite. -/
def pyDictInsert (acc : List (String × α)) (k : String) (v : α) : List (String × α) :=
  if acc.any (fun q => q.1 == k) then
    acc.map (fun q => if q.1 = k then (k, v) else q)
  else acc ++ [(k, v)]

/-- `{p[0]: p[1] for p in ps}`. -/
def pyDict (ps : List (String × α)) : List (String × α) :=
  ps.foldl (fun a p => pyDictInsert a p.1 p.2) []

/-- `d[k]` as a total lookup (`none` when the key is absent). -/
def dictLookup (ps : List (String × α)) (k : String) : Option α :=
  (ps.find? (fun q => q.1 == k)).map (fun q => q.2)

/-! ### String comparison

SQLite compares `TEXT` columns byte-wise under the default `BINARY`
collation, and Python compares strings code-point-wise; on the ASCII digits
and dashes of date strings the two coincide with plain lexicographic
comparison of the character sequences, modelled structurally here. -/

/-- Lexicographic comparison of character lists. -/
def lexLe : List Char → List Char → Bool
  | [], _ => true
  | _ :: _, [] => false
  | a :: as, b :: bs =>
    if a.toNat < b.toNat then true
    else if b.toNat < a.toNat then false
    else lexLe as bs

/-- `a <= b` on strings (SQLite `TEXT` comparison). -/
def strLe (a b : String) : Bool := lexLe a.data b.data

/-- `a < b` on strings: strictly below in the total order `strLe`. -/
def strLt (a b : String) : Bool := !(strLe b a)

/-- Binary maximum of strings in the `strLe` order. -/
def maxStr (a b : String) : String := if strLe a b then b else a

/-! ### Query building blocks -/

/-- Ordering of rows used by `order_by(Measurement.date)`. -/
def dateLE (a b : Row) : Prop := strLe a.date b.date = true

instance : DecidableRel dateLE :=
  fun a b => inferInstanceAs (Decidable (strLe a.date b.date = true))

/-- `order_by(Measurement.date)` ascending, determinized as a stable sort of
the stored row order. -/
def sortByDate (l : List Row) : List Row := l.insertionSort dateLE

/-- `order_by(Measurement.date.desc()).first()` on the `date` column: the
maximum date string, or `none` on an empty table (SQLAlchemy `first()`
returns `None`). -/
def maxDate : List Row → Option String
  | [] => none
  | r :: rs => some (rs.foldl (fun a x => maxStr a x.date) r.date)

/-- `func.count(Measurement.station)` for one group of the
`group_by(Measurement.station)` query. -/
def stationCount (db : List Row) (s : String) : Nat :=
  (db.filter (fun r => r.station == s)).length

/-- The `group_by` / `order_by(count desc)` / `first()` pipeline: some
station of maximal observation count (ties resolved to the first such
station in the determinized group order), `none` on an empty table. -/
def most_active_station (db : List Row) : Option String :=
  (db.map (fun r => r.station)).argmax (stationCount db)

/-- SQL `MIN` aggregate: `NULL` on an empty row set. -/
def aggMin : List ℚ → Option ℚ
  | [] => none
  | x :: xs => some (xs.foldl min x)

/-- SQL `MAX` aggregate: `NULL` on an empty row set. -/
def aggMax : List ℚ → Option ℚ
  | [] => none
  | x :: xs => some (xs.foldl max x)

/-- SQL `AVG` aggregate: `NULL` on an empty row set. -/
def aggAvg : List ℚ → Option ℚ
  | [] => none
  | x :: xs => some ((x :: xs).sum / ((x :: xs).length : ℚ))

/-- Round to the nearest integer, halves away from zero (SQLite `ROUND`). -/
def roundAwayZero (q : ℚ) : ℤ :=
  if 0 ≤ q then ⌊q + 1 / 2⌋ else -⌊-q + 1 / 2⌋

/-- `func.round(x, 1)`: round to one decimal place. -/
def round1 (q : ℚ) : ℚ := (roundAwayZero (10 * q) : ℚ) / 10

/-! ### Route outcomes -/

/-- What a route handler produces, as seen by the framework:
* `ok`: HTTP 200 with the JSON-serializable payload;
* `errJson`: `jsonify({"error": msg})` together with an explicit status;
* `abortHtml`: `abort(status, description=descr)` — an `HTTPException`
  rendered by the framework as its default HTML error page, not as the JSON
  error envelope;
* `uncaught`: an exception other than `SQLAlchemyError`/`HTTPException`
  escaped the handler. -/
inductive RouteResult (α : Type) where
  | ok : α → RouteResult α
  | errJson : Nat → String → RouteResult α
  | abortHtml : Nat → String → RouteResult α
  | uncaught : String → RouteResult α
deriving DecidableEq, Repr

/-- A finished request: the outcome and whether `session.close()` ran
before the handler exited. -/
structure Run (α : Type) where
  result : RouteResult α
  sessionClosed : Bool
deriving DecidableEq, Repr

/-- The message of the `TypeError` raised by `first()[0]` when `first()`
returned `None`. -/
def tyErrMsg : String := "TypeError: NoneType object is not subscriptable"

/-- The message of the exception raised inside the date-library calls. -/
def dateLibErrMsg : String := "date library error"

/-- The `400` description used by both parameterized routes. -/
def badDateMsg : String := "Invalid date format. Use YYYY-MM-DD."

/-! ### The five routes -/

/-- `/api/v1.0/precipitation`.  Finds the most recent date, computes the
365-day cutoff, selects `(date, prcp)` with `date >= cutoff` ordered by
date, and collapses the rows into a dict keyed by date. -/
def precipitation (fault : Option String) (db : List Row) : Run (List (String × Option ℚ)) :=
  match fault with
  | some e => ⟨.errJson 500 e, true⟩
  | none =>
    match maxDate db with
    | none => ⟨.uncaught tyErrMsg, true⟩
    | some mx =>
      match cutoff365 mx with
      | none => ⟨.uncaught dateLibErrMsg, true⟩
      | some c =>
        ⟨.ok (pyDict ((sortByDate (db.filter (fun r => strLe c r.date))).map
          (fun r => (r.date, r.prcp)))), true⟩

/-- `/api/v1.0/stations`.  `session.query(Station.station).all()` flattened
by `np.ravel`: the `station` column of the station table, in storage order
(no `DISTINCT` is applied by the query). -/
def stations (fault : Option String) (stationTable : List String) : Run (List String) :=
  match fault with
  | some e => ⟨.errJson 500 e, true⟩
  | none => ⟨.ok stationTable, true⟩

/-- `/api/v1.0/tobs`.  Most active station, then the same 365-day cutoff,
then that station's `(date, tobs)` rows in the window ordered by date. -/
def tobs (fault : Option String) (db : List Row) : Run (List (String × ℚ)) :=
  match fault with
  | some e => ⟨.errJson 500 e, true⟩
  | none =>
    match most_active_station db with
    | none => ⟨.uncaught tyErrMsg, true⟩
    | some m =>
      match maxDate db with
      | none => ⟨.uncaught tyErrMsg, true⟩
      | some mx =>
        match cutoff365 mx with
        | none => ⟨.uncaught dateLibErrMsg, true⟩
        | some c =>
          ⟨.ok ((sortByDate (db.filter (fun r => r.station == m && strLe c r.date))).map
            (fun r => (r.date, r.tobs))), true⟩

/-- The `{"TMIN", "TAVG", "TMAX"}` response body of the two stats routes. -/
structure Stats where
  TMIN : ℚ
  TAVG : ℚ
  TMAX : ℚ
deriving DecidableEq, Repr

/-- The shared aggregate step of the two stats routes (lines 193-210 and
241-259 of `app.py`): `MIN`, `ROUND(AVG, 1)`, `MAX` over the filtered
temperatures, the 404 envelope when `MIN` is `NULL` (empty row set). -/
def statsResult (temps : List ℚ) (notFoundMsg : String) : RouteResult Stats :=
  match aggMin temps, aggAvg temps, aggMax temps with
  | some mn, some av, some mx => .ok ⟨mn, round1 av, mx⟩
  | _, _, _ => .errJson 404 notFoundMsg

/-- `/api/v1.0/<start>`.  The session is created first; `abort(400, ...)`
is raised before the `try:` block when the date is malformed, so on that
path `session.close()` does not run.  Otherwise: aggregate
`MIN`/`ROUND(AVG, 1)`/`MAX` over `date >= start`, `404` when `MIN` is
`NULL`. -/
def start (fault : Option String) (db : List Row) (startP : String) : Run Stats :=
  if is_valid_date startP = false then ⟨.abortHtml 400 badDateMsg, false⟩
  else
    match fault with
    | some e => ⟨.errJson 500 e, true⟩
    | none =>
      ⟨statsResult ((db.filter (fun r => strLe startP r.date)).map (fun r => r.tobs))
        ("No data found for the given start date."), true⟩

/-- `/api/v1.0/<start>/<end>`.  Both parameters validated (still before the
`try:` block), aggregate over `start <= date <= end` inclusive. -/
def start_end (fault : Option String) (db : List Row) (startP endP : String) : Run Stats :=
  if is_valid_date startP = false ∨ is_valid_date endP = false then
    ⟨.abortHtml 400 badDateMsg, false⟩
  else
    match fault with
    | some e => ⟨.errJson 500 e, true⟩
    | none =>
      ⟨statsResult ((db.filter (fun r =>
          strLe startP r.date && strLe r.date endP)).map (fun r => r.tobs))
        ("No data found for the given date range."), true⟩

/-! ### Concrete datasets used to instantiate the theorems -/

/-- A small dataset around the spec scenario: max date `2017-08-23`, one row
on the cutoff date `2016-08-23` (twice, from two stations), one row just
before it. -/
def exDb : List Row :=
  [⟨"USC1", "2016-08-22", some (1 / 2), 71⟩,
   ⟨"USC2", "2016-08-23", some (3 / 2), 70⟩,
   ⟨"USC1", "2016-08-23", some (7 / 4), 76⟩,
   ⟨"USC1", "2017-08-23", none, 81⟩]

/-- A dataset with a single temperature that is not a multiple of `0.1`. -/
def cexDb : List Row := [⟨"S", "2017-08-23", none, 3 / 50⟩]

/-! ### Helper lemmas: the lexicographic string order -/

theorem lexLe_refl : ∀ l : List Char, lexLe l l = true
  | [] => rfl
  | a :: as => by
    simp only [lexLe, lt_irrefl a.toNat, if_false]
    exact lexLe_refl as

theorem lexLe_total : ∀ a b : List Char, lexLe a b = true ∨ lexLe b a = true
  | [], _ => Or.inl rfl
  | _ :: _, [] => Or.inr rfl
  | a :: as, b :: bs => by
    simp only [lexLe]
    by_cases h1 : a.toNat < b.toNat
    · exact Or.inl (by rw [if_pos h1])
    · by_cases h2 : b.toNat < a.toNat
      · exact Or.inr (by rw [if_pos h2])
      · rw [if_neg h1, if_neg h2, if_neg h2, if_neg h1]
        exact lexLe_total as bs

theorem lexLe_trans : ∀ a b c : List Char,
    lexLe a b = true → lexLe b c = true → lexLe a c = true
  | [], _, _, _, _ => rfl
  | _ :: _, [], _, hab, _ => by simp [lexLe] at hab
  | _ :: _, _ :: _, [], _, hbc => by simp [lexLe] at hbc
  | a :: as, b :: bs, c :: cs, hab, hbc => by
    simp only [lexLe] at hab hbc ⊢
    by_cases h1 : a.toNat < b.toNat
    · by_cases h2 : b.toNat < c.toNat
      · rw [if_pos (by omega : a.toNat < c.toNat)]
      · rw [if_neg h2] at hbc
        by_cases h3 : c.toNat < b.toNat
        · rw [if_pos h3] at hbc
          cases hbc
        · rw [if_pos (by omega : a.toNat < c.toNat)]
    · rw [if_neg h1] at hab
      by_cases h1' : b.toNat < a.toNat
      · rw [if_pos h1'] at hab
        cases hab
      · rw [if_neg h1'] at hab
        by_cases h2 : b.toNat < c.toNat
        · rw [if_pos (by omega : a.toNat < c.toNat)]
        · rw [if_neg h2] at hbc
          by_cases h3 : c.toNat < b.toNat
          · rw [if_pos h3] at hbc
            cases hbc
          · rw [if_neg h3] at hbc
            rw [if_neg (by omega : ¬ a.toNat < c.toNat),
              if_neg (by omega : ¬ c.toNat < a.toNat)]
            exact lexLe_trans as bs cs hab hbc

theorem strLe_refl (a : String) : strLe a a = true := lexLe_refl a.data

theorem strLe_total (a b : String) : strLe a b = true ∨ strLe b a = true :=
  lexLe_total a.data b.data

theorem strLe_trans {a b c : String} (h1 : strLe a b = true) (h2 : strLe b c = true) :
    strLe a c = true := lexLe_trans a.data b.data c.data h1 h2

theorem strLe_maxStr_left (a b : String) : strLe a (maxStr a b) = true := by
  unfold maxStr
  by_cases h : strLe a b = true
  · rw [if_pos h]; exact h
  · rw [if_neg h]; exact strLe_refl a

theorem strLe_maxStr_right (a b : String) : strLe b (maxStr a b) = true := by
  unfold maxStr
  by_cases h : strLe a b = true
  · rw [if_pos h]; exact strLe_refl b
  · rw [if_neg h]
    rcases strLe_total a b with h1 | h1
    · exact absurd h1 h
    · exact h1

theorem maxStr_choice (a b : String) : maxStr a b = a ∨ maxStr a b = b := by
  unfold maxStr
  by_cases h : strLe a b = true
  · rw [if_pos h]; exact Or.inr rfl
  · rw [if_neg h]; exact Or.inl rfl

/-! ### Helper lemmas: folded maxima and minima -/

theorem strLe_foldl_maxStr (rs : List Row) :
    ∀ a : String, strLe a (rs.foldl (fun b x => maxStr b x.date) a) = true := by
  induction rs with
  | nil => intro a; exact strLe_refl a
  | cons y ys ih =>
    intro a
    exact strLe_trans (strLe_maxStr_left a y.date) (ih (maxStr a y.date))

theorem mem_strLe_foldl_maxStr (rs : List Row) :
    ∀ (a : String) (r : Row), r ∈ rs →
      strLe r.date (rs.foldl (fun b x => maxStr b x.date) a) = true := by
  induction rs with
  | nil => intro a r hr; cases hr
  | cons y ys ih =>
    intro a r hr
    rcases List.mem_cons.mp hr with h | h
    · rw [h]
      exact strLe_trans (strLe_maxStr_right a y.date) (strLe_foldl_maxStr ys (maxStr a y.date))
    · exact ih (maxStr a y.date) r h

theorem foldl_maxStr_mem (rs : List Row) :
    ∀ a : String, rs.foldl (fun b x => maxStr b x.date) a = a ∨
      ∃ r ∈ rs, rs.foldl (fun b x => maxStr b x.date) a = r.date := by
  induction rs with
  | nil => intro a; exact Or.inl rfl
  | cons y ys ih =>
    intro a
    rcases ih (maxStr a y.date) with h | ⟨r, hr, he⟩
    · rcases maxStr_choice a y.date with hm | hm
      · exact Or.inl (by rw [List.foldl_cons, h, hm])
      · exact Or.inr ⟨y, List.mem_cons_self y ys, by rw [List.foldl_cons, h, hm]⟩
    · exact Or.inr ⟨r, List.mem_cons_of_mem y hr, by rw [List.foldl_cons, he]⟩

theorem le_foldl_max {α : Type} [LinearOrder α] (xs : List α) :
    ∀ a : α, a ≤ xs.foldl max a := by
  induction xs with
  | nil => intro a; exact le_refl a
  | cons y ys ih =>
    intro a
    exact le_trans (le_max_left a y) (ih (max a y))

theorem mem_le_foldl_max {α : Type} [LinearOrder α] (xs : List α) :
    ∀ (a x : α), x ∈ xs → x ≤ xs.foldl max a := by
  induction xs with
  | nil => intro a x hx; cases hx
  | cons y ys ih =>
    intro a x hx
    rcases List.mem_cons.mp hx with h | h
    · subst h
      exact le_trans (le_max_right a x) (le_foldl_max ys (max a x))
    · exact ih (max a y) x h

theorem foldl_max_mem {α : Type} [LinearOrder α] (xs : List α) :
    ∀ a : α, xs.foldl max a = a ∨ xs.foldl max a ∈ xs := by
  induction xs with
  | nil => intro a; exact Or.inl rfl
  | cons y ys ih =>
    intro a
    rcases ih (max a y) with h | h
    · rcases max_choice a y with hm | hm
      · exact Or.inl (by simpa [hm] using h)
      · exact Or.inr (List.mem_cons.mpr (Or.inl (by simpa [hm] using h)))
    · exact Or.inr (List.mem_cons.mpr (Or.inr h))

theorem foldl_min_le {α : Type} [LinearOrder α] (xs : List α) :
    ∀ a : α, xs.foldl min a ≤ a := by
  induction xs with
  | nil => intro a; exact le_refl a
  | cons y ys ih =>
    intro a
    exact le_trans (ih (min a y)) (min_le_left a y)

theorem foldl_min_le_mem {α : Type} [LinearOrder α] (xs : List α) :
    ∀ (a x : α), x ∈ xs → xs.foldl min a ≤ x := by
  induction xs with
  | nil => intro a x hx; cases hx
  | cons y ys ih =>
    intro a x hx
    rcases List.mem_cons.mp hx with h | h
    · subst h
      exact le_trans (foldl_min_le ys (min a x)) (min_le_right a x)
    · exact ih (min a y) x h

theorem foldl_min_mem {α : Type} [LinearOrder α] (xs : List α) :
    ∀ a : α, xs.foldl min a = a ∨ xs.foldl min a ∈ xs := by
  induction xs with
  | nil => intro a; exact Or.inl rfl
  | cons y ys ih =>
    intro a
    rcases ih (min a y) with h | h
    · rcases min_choice a y with hm | hm
      · exact Or.inl (by simpa [hm] using h)
      · exact Or.inr (List.mem_cons.mpr (Or.inl (by simpa [hm] using h)))
    · exact Or.inr (List.mem_cons.mpr (Or.inr h))

/-- `maxDate` returns a date of the table and an upper bound of all dates. -/
theorem maxDate_spec (db : List Row) (mx : String) (h : maxDate db = some mx) :
    (∃ r ∈ db, r.date = mx) ∧ ∀ r ∈ db, strLe r.date mx = true := by
  cases db with
  | nil => cases h
  | cons r rs =>
    have hmx : rs.foldl (fun b x => maxStr b x.date) r.date = mx := by
      simpa [maxDate] using h
    constructor
    · rcases foldl_maxStr_mem rs r.date with h1 | ⟨x, hx, hxd⟩
      · exact ⟨r, List.mem_cons_self r rs, by rw [← hmx, h1]⟩
      · exact ⟨x, List.mem_cons_of_mem r hx, by rw [← hmx, hxd]⟩
    · intro x hx
      rcases List.mem_cons.mp hx with h1 | h1
      · rw [h1, ← hmx]
        exact strLe_foldl_maxStr rs r.date
      · rw [← hmx]
        exact mem_strLe_foldl_maxStr rs r.date x h1

/-- `aggMin` returns an element of the list. -/
theorem aggMin_mem (l : List ℚ) (mn : ℚ) (h : aggMin l = some mn) : mn ∈ l := by
  cases l with
  | nil => cases h
  | cons x xs =>
    have hx : xs.foldl min x = mn := by simpa [aggMin] using h
    rcases foldl_min_mem xs x with h1 | h1
    · exact List.mem_cons.mpr (Or.inl (by rw [← hx, h1]))
    · exact List.mem_cons.mpr (Or.inr (by rw [← hx]; exact h1))

/-- `aggMin` bounds every element from below. -/
theorem aggMin_le (l : List ℚ) (mn : ℚ) (h : aggMin l = some mn) :
    ∀ x ∈ l, mn ≤ x := by
  cases l with
  | nil => cases h
  | cons y ys =>
    have hx : ys.foldl min y = mn := by simpa [aggMin] using h
    intro x hxl
    rcases List.mem_cons.mp hxl with h1 | h1
    · rw [h1, ← hx]; exact foldl_min_le ys y
    · rw [← hx]; exact foldl_min_le_mem ys y x h1

/-- `aggMax` returns an element of the list. -/
theorem aggMax_mem (l : List ℚ) (mx : ℚ) (h : aggMax l = some mx) : mx ∈ l := by
  cases l with
  | nil => cases h
  | cons x xs =>
    have hx : xs.foldl max x = mx := by simpa [aggMax] using h
    rcases foldl_max_mem xs x with h1 | h1
    · exact List.mem_cons.mpr (Or.inl (by rw [← hx, h1]))
    · exact List.mem_cons.mpr (Or.inr (by rw [← hx]; exact h1))

/-- `aggMax` bounds every element from above. -/
theorem le_aggMax (l : List ℚ) (mx : ℚ) (h : aggMax l = some mx) :
    ∀ x ∈ l, x ≤ mx := by
  cases l with
  | nil => cases h
  | cons y ys =>
    have hx : ys.foldl max y = mx := by simpa [aggMax] using h
    intro x hxl
    rcases List.mem_cons.mp hxl with h1 | h1
    · rw [h1, ← hx]; exact le_foldl_max ys y
    · rw [← hx]; exact mem_le_foldl_max ys y x h1

/-- The average lies between the minimum and the maximum. -/
theorem aggAvg_between (l : List ℚ) (mn av mx : ℚ)
    (h1 : aggMin l = some mn) (h2 : aggAvg l = some av) (h3 : aggMax l = some mx) :
    mn ≤ av ∧ av ≤ mx := by
  cases l with
  | nil => cases h1
  | cons x xs =>
    have hav : (x :: xs).sum / (((x :: xs).length : ℕ) : ℚ) = av := by
      simpa [aggAvg] using h2
    have hlen : (0 : ℚ) < (((x :: xs).length : ℕ) : ℚ) := by
      have : 0 < (x :: xs).length := Nat.succ_pos _
      exact_mod_cast this
    have hlow : (x :: xs).length • mn ≤ (x :: xs).sum :=
      List.card_nsmul_le_sum _ mn (aggMin_le _ mn h1)
    have hhigh : (x :: xs).sum ≤ (x :: xs).length • mx :=
      List.sum_le_card_nsmul _ mx (le_aggMax _ mx h3)
    rw [nsmul_eq_mul] at hlow hhigh
    constructor
    · rw [← hav]
      rw [le_div_iff₀ hlen]
      calc mn * ((x :: xs).length : ℚ) = ((x :: xs).length : ℚ) * mn := by ring
        _ ≤ (x :: xs).sum := hlow
    · rw [← hav]
      rw [div_le_iff₀ hlen]
      calc (x :: xs).sum ≤ ((x :: xs).length : ℚ) * mx := hhigh
        _ = mx * ((x :: xs).length : ℚ) := by ring

/-! ### Helper lemmas: the Python dict model -/

theorem dictLookup_cons_pos {α : Type} (q : String × α) (acc : List (String × α))
    (k' : String) (h : q.1 = k') : dictLookup (q :: acc) k' = some q.2 := by
  unfold dictLookup
  rw [List.find?_cons_of_pos _ (by simpa using h)]
  rfl

theorem dictLookup_cons_neg {α : Type} (q : String × α) (acc : List (String × α))
    (k' : String) (h : ¬ q.1 = k') : dictLookup (q :: acc) k' = dictLookup acc k' := by
  unfold dictLookup
  rw [List.find?_cons_of_neg _ (by simpa using h)]

theorem dictLookup_map_update_hit {α : Type} (acc : List (String × α)) (k : String) (v : α)
    (ha : acc.any (fun q => q.1 == k) = true) :
    dictLookup (acc.map (fun q => if q.1 = k then (k, v) else q)) k = some v := by
  induction acc with
  | nil => cases ha
  | cons q acc ih =>
    by_cases hq : q.1 = k
    · simp only [List.map_cons, if_pos hq]
      exact dictLookup_cons_pos (k, v) _ k rfl
    · have ha' : acc.any (fun q => q.1 == k) = true := by
        rcases List.any_eq_true.mp ha with ⟨p, hp, hpk⟩
        rcases List.mem_cons.mp hp with h | h
        · rw [h] at hpk
          exact absurd (by simpa using hpk) hq
        · exact List.any_eq_true.mpr ⟨p, h, hpk⟩
      simp only [List.map_cons, if_neg hq]
      rw [dictLookup_cons_neg q _ k hq]
      exact ih ha'

theorem dictLookup_map_update_miss {α : Type} (acc : List (String × α)) (k k' : String)
    (v : α) (hk : k' ≠ k) :
    dictLookup (acc.map (fun q => if q.1 = k then (k, v) else q)) k' = dictLookup acc k' := by
  induction acc with
  | nil => rfl
  | cons q acc ih =>
    by_cases hq : q.1 = k
    · have hne : ¬ (q.1 = k') := by rw [hq]; exact fun h => hk h.symm
      simp only [List.map_cons, if_pos hq]
      rw [dictLookup_cons_neg (k, v) _ k' (fun h => hk h.symm), ih,
        dictLookup_cons_neg q acc k' hne]
    · by_cases hqk : q.1 = k'
      · simp only [List.map_cons, if_neg hq]
        rw [dictLookup_cons_pos q _ k' hqk, dictLookup_cons_pos q acc k' hqk]
      · simp only [List.map_cons, if_neg hq]
        rw [dictLookup_cons_neg q _ k' hqk, ih, dictLookup_cons_neg q acc k' hqk]

theorem dictLookup_pyDictInsert {α : Type} (acc : List (String × α)) (k k' : String) (v : α) :
    dictLookup (pyDictInsert acc k v) k' = if k' = k then some v else dictLookup acc k' := by
  unfold pyDictInsert
  by_cases ha : acc.any (fun q => q.1 == k) = true
  · rw [if_pos (by simpa using ha)]
    by_cases hk : k' = k
    · rw [if_pos hk, hk, dictLookup_map_update_hit acc k v ha]
    · rw [if_neg hk, dictLookup_map_update_miss acc k k' v hk]
  · rw [if_neg (by simpa using ha)]
    by_cases hk : k' = k
    · have hnone : acc.find? (fun q => q.1 == k') = none := by
        apply List.find?_eq_none.mpr
        intro q hq hcontra
        exact ha (List.any_eq_true.mpr ⟨q, hq, by rw [hk] at hcontra; exact hcontra⟩)
      rw [if_pos hk]
      unfold dictLookup
      rw [List.find?_append, hnone]
      have hfind : List.find? (fun q => q.1 == k') [(k, v)] = some (k, v) := by
        apply List.find?_cons_of_pos
        simp [hk]
      rw [hfind]
      rfl
    · rw [if_neg hk]
      unfold dictLookup
      rw [List.find?_append]
      have hfind : List.find? (fun q => q.1 == k') [(k, v)] = none := by
        rw [List.find?_cons_of_neg _ (by simpa using fun h : k = k' => hk h.symm)]
        rfl
      rw [hfind, Option.or_none]

theorem pyDict_append_single {α : Type} (ps : List (String × α)) (p : String × α) :
    pyDict (ps ++ [p]) = pyDictInsert (pyDict ps) p.1 p.2 := by
  simp [pyDict, List.foldl_append]

/-- Looking a key up in the dict built by the comprehension gives the value
of the LAST pair with that key in iteration order. -/
theorem dictLookup_pyDict {α : Type} (ps : List (String × α)) (k : String) :
    dictLookup (pyDict ps) k =
      (ps.reverse.find? (fun q => q.1 == k)).map (fun q => q.2) := by
  induction ps using List.reverseRecOn with
  | nil => simp [pyDict, dictLookup]
  | append_singleton ps p ih =>
    rw [pyDict_append_single, dictLookup_pyDictInsert, List.reverse_append]
    by_cases h : k = p.1
    · rw [if_pos h]
      have hpk : ((fun q : String × α => q.1 == k) p) = true := by simp [h.symm]
      simp only [List.reverse_cons, List.reverse_nil, List.nil_append, List.cons_append]
      have hf : List.find? (fun q : String × α => q.1 == k) (p :: ps.reverse) = some p :=
        @List.find?_cons_of_pos _ (fun q : String × α => q.1 == k) p ps.reverse hpk
      rw [hf]
      rfl
    · rw [if_neg h]
      simp only [List.reverse_cons, List.reverse_nil, List.nil_append, List.cons_append]
      have hpk : ¬ ((fun q : String × α => q.1 == k) p) = true := by
        simpa using fun hc => h hc.symm
      have hf : List.find? (fun q : String × α => q.1 == k) (p :: ps.reverse) =
          List.find? (fun q : String × α => q.1 == k) ps.reverse :=
        @List.find?_cons_of_neg _ (fun q : String × α => q.1 == k) p ps.reverse hpk
      rw [hf]
      exact ih

theorem mem_keys_pyDictInsert {α : Type} (acc : List (String × α)) (k : String) (v : α)
    (k' : String) :
    k' ∈ (pyDictInsert acc k v).map Prod.fst ↔ k' ∈ acc.map Prod.fst ∨ k' = k := by
  unfold pyDictInsert
  by_cases ha : acc.any (fun q => q.1 == k) = true
  · rw [if_pos (by simpa using ha)]
    have hkeys : (acc.map (fun q => if q.1 = k then (k, v) else q)).map Prod.fst =
        acc.map Prod.fst := by
      rw [List.map_map]
      apply List.map_congr_left
      intro q hq
      by_cases h : q.1 = k <;> simp [h]
    rw [hkeys]
    constructor
    · exact Or.inl
    · intro h
      rcases h with h | h
      · exact h
      · rcases List.any_eq_true.mp ha with ⟨q, hq, hqk⟩
        have : q.1 = k := by simpa using hqk
        exact h ▸ (this ▸ List.mem_map_of_mem Prod.fst hq)
  · rw [if_neg (by simpa using ha)]
    simp [List.mem_append]

/-- The key set of the dict is the set of first components of the pairs. -/
theorem mem_keys_pyDict {α : Type} (ps : List (String × α)) (k : String) :
    k ∈ (pyDict ps).map Prod.fst ↔ k ∈ ps.map Prod.fst := by
  induction ps using List.reverseRecOn with
  | nil => simp [pyDict]
  | append_singleton ps p ih =>
    rw [pyDict_append_single, mem_keys_pyDictInsert, ih]
    simp [List.mem_append]

/-! ### Helper lemmas: rounding -/

theorem floor_half_eq_zero : ⌊(1 : ℚ) / 2⌋ = 0 := by
  apply Int.floor_eq_zero_iff.mpr
  constructor <;> norm_num

theorem le_roundAwayZero (n : ℤ) (q : ℚ) (h : (n : ℚ) ≤ q) : n ≤ roundAwayZero q := by
  unfold roundAwayZero
  by_cases h0 : 0 ≤ q
  · rw [if_pos h0]
    exact Int.le_floor.mpr (by linarith)
  · rw [if_neg h0]
    have hfl : ⌊-q + 1 / 2⌋ ≤ ⌊((-n : ℤ) : ℚ) + 1 / 2⌋ :=
      Int.floor_le_floor (by push_cast; linarith)
    rw [Int.floor_int_add, floor_half_eq_zero] at hfl
    omega

theorem roundAwayZero_le (n : ℤ) (q : ℚ) (h : q ≤ (n : ℚ)) : roundAwayZero q ≤ n := by
  unfold roundAwayZero
  by_cases h0 : 0 ≤ q
  · rw [if_pos h0]
    have hfl : ⌊q + 1 / 2⌋ ≤ ⌊((n : ℤ) : ℚ) + 1 / 2⌋ :=
      Int.floor_le_floor (by linarith)
    rw [Int.floor_int_add, floor_half_eq_zero] at hfl
    omega
  · rw [if_neg h0]
    have hfl : (-n : ℤ) ≤ ⌊-q + 1 / 2⌋ := Int.le_floor.mpr (by push_cast; linarith)
    omega

/-- When the endpoints are integer multiples of one tenth, rounding a value
between them to one decimal place stays between them. -/
theorem round1_between (k j : ℤ) (q : ℚ)
    (h1 : (k : ℚ) / 10 ≤ q) (h2 : q ≤ (j : ℚ) / 10) :
    (k : ℚ) / 10 ≤ round1 q ∧ round1 q ≤ (j : ℚ) / 10 := by
  have hk : (k : ℚ) ≤ 10 * q := by linarith
  have hj : 10 * q ≤ (j : ℚ) := by linarith
  have h1' : k ≤ roundAwayZero (10 * q) := le_roundAwayZero k (10 * q) hk
  have h2' : roundAwayZero (10 * q) ≤ j := roundAwayZero_le j (10 * q) hj
  unfold round1
  constructor
  · exact (div_le_div_iff_of_pos_right (by norm_num : (0 : ℚ) < 10)).mpr
      (by exact_mod_cast h1')
  · exact (div_le_div_iff_of_pos_right (by norm_num : (0 : ℚ) < 10)).mpr
      (by exact_mod_cast h2')

/-! ### Helper lemmas: the shared stats step -/

theorem statsResult_nil (msg : String) : statsResult [] msg = .errJson 404 msg := rfl

theorem statsResult_cons (x : ℚ) (xs : List ℚ) (msg : String) :
    statsResult (x :: xs) msg =
      .ok ⟨xs.foldl min x, round1 ((x :: xs).sum / (((x :: xs).length : ℕ) : ℚ)),
        xs.foldl max x⟩ := rfl

theorem statsResult_ne_abortHtml (temps : List ℚ) (msg : String) (st : Nat) (d : String) :
    statsResult temps msg ≠ .abortHtml st d := by
  cases temps with
  | nil => rw [statsResult_nil]; simp
  | cons x xs => rw [statsResult_cons]; simp

/-! ### Claim C1 -/

/-- C1, counterexample: `"2017-8-3"` is not in the exact `YYYY-MM-DD` format
(wrong field widths), yet `is_valid_date` accepts it — `strptime` with
`%m`/`%d` also matches one-digit months and days — so `get_stats_from` does
not reject it with the 400 error, contradicting the claimed equivalence with
the exact format. -/
theorem width_not_rejected_counterexample :
    is_valid_date ("2017-8-3") = true ∧
    isCanonicalYMD ("2017-8-3") = false ∧
    (start none [] ("2017-8-3")).result ≠ .abortHtml 400 badDateMsg := by
  refine ⟨by decide, by decide, by decide⟩

/-- C1 (amended): `get_stats_from` rejects `start` with the 400 error
carrying `"Invalid date format. Use YYYY-MM-DD."` iff `start` fails
`datetime.strptime(start, "%Y-%m-%d")`, which accepts a four digit year and
one- or two-digit month and day fields of a real calendar date (so
leap-day-invalid dates, wrong separators, non-numeric components and
trailing/leading characters are rejected, but short field widths are
accepted); it accepts `"2017-08-23"` and rejects `"2017-13-01"`,
`"08-23-2017"`, `"2017/08/23"` and `""`. -/
theorem start_validation_iff :
    (∀ (fault : Option String) (db : List Row) (s : String),
      (start fault db s).result = .abortHtml 400 badDateMsg ↔ is_valid_date s = false) ∧
    is_valid_date ("2017-08-23") = true ∧
    is_valid_date ("2017-13-01") = false ∧
    is_valid_date ("08-23-2017") = false ∧
    is_valid_date ("2017/08/23") = false ∧
    is_valid_date ("") = false ∧
    is_valid_date ("2017-02-29") = false ∧
    is_valid_date ("2016-02-29") = true ∧
    is_valid_date ("2017-8-3") = true := by
  refine ⟨?_, by decide, by decide, by decide, by decide, by decide, by decide,
    by decide, by decide⟩
  intro fault db s
  unfold start
  by_cases hv : is_valid_date s = false
  · rw [if_pos hv]
    simp [hv]
  · rw [if_neg hv]
    cases fault with
    | some e => simp [hv]
    | none =>
      constructor
      · intro h
        exact absurd h (statsResult_ne_abortHtml _ _ 400 badDateMsg)
      · intro h
        exact absurd h hv

/-! ### Claim C2 -/

/-- C2, counterexample: a validation failure is answered through
`abort(400, ...)`, whose body is the framework HTML error page and not the
JSON envelope, and on an empty table the precipitation route raises an
uncaught `TypeError` that propagates out of the handler. -/
theorem error_envelope_counterexample :
    (start none [] ("not-a-date")).result = .abortHtml 400 badDateMsg ∧
    (precipitation none []).result = .uncaught tyErrMsg := by
  refine ⟨by decide, rfl⟩

/-- C2 (amended): every storage fault is handled locally and converted to
the JSON envelope with status 500 on all five routes, and an empty aggregate
result on the stats routes to the envelope with status 404; however a
validation failure yields the framework HTML 400 page instead of the JSON
envelope, and an empty table makes `get_precipitation` and
`get_temperature_observations` raise an uncaught `TypeError` (see the C10
theorem). -/
theorem error_envelope_amended :
    ∀ (e : String) (db : List Row) (ids : List String) (s en : String),
      is_valid_date s = true → is_valid_date en = true →
      (precipitation (some e) db).result = .errJson 500 e ∧
      (stations (some e) ids).result = .errJson 500 e ∧
      (tobs (some e) db).result = .errJson 500 e ∧
      (start (some e) db s).result = .errJson 500 e ∧
      (start_end (some e) db s en).result = .errJson 500 e ∧
      (start none [] s).result = .errJson 404 ("No data found for the given start date.") ∧
      (start_end none [] s en).result =
        .errJson 404 ("No data found for the given date range.") := by
  intro e db ids s en hs hen
  have hs' : ¬ (is_valid_date s = false) := by simp [hs]
  have hsen' : ¬ (is_valid_date s = false ∨ is_valid_date en = false) := by simp [hs, hen]
  refine ⟨rfl, rfl, rfl, ?_, ?_, ?_, ?_⟩
  · unfold start
    rw [if_neg hs']
  · unfold start_end
    rw [if_neg hsen']
  · unfold start
    rw [if_neg hs']
    rfl
  · unfold start_end
    rw [if_neg hsen']
    rfl

/-- Witness for the C2 amended theorem at concrete inputs. -/
theorem error_envelope_amended_witness :
    (is_valid_date ("2017-01-01") = true ∧ is_valid_date ("2017-01-02") = true) ∧
    ((precipitation (some ("boom")) exDb).result = .errJson 500 ("boom") ∧
     (stations (some ("boom")) [("USC1")]).result = .errJson 500 ("boom") ∧
     (tobs (some ("boom")) exDb).result = .errJson 500 ("boom") ∧
     (start (some ("boom")) exDb ("2017-01-01")).result = .errJson 500 ("boom") ∧
     (start_end (some ("boom")) exDb ("2017-01-01") ("2017-01-02")).result =
       .errJson 500 ("boom") ∧
     (start none [] ("2017-01-01")).result =
       .errJson 404 ("No data found for the given start date.") ∧
     (start_end none [] ("2017-01-01") ("2017-01-02")).result =
       .errJson 404 ("No data found for the given date range.")) :=
  ⟨⟨by decide, by decide⟩,
    error_envelope_amended ("boom") exDb [("USC1")] ("2017-01-01") ("2017-01-02")
      (by decide) (by decide)⟩

/-! ### Claim C3 -/

/-- C3 is a code bug: on the 400 validation-failure path of the two
parameterized routes the session is acquired and `abort` is raised before
the `try:`/`finally:` block, so `session.close()` never runs — the session
leaks on exactly that path, while every other exit path (success, empty
result, storage fault, and even the uncaught `TypeError` of the empty-table
case) does close the session. -/
theorem session_close_paths :
    (start none [] ("xyz")).sessionClosed = false ∧
    (start_end none [] ("2017-01-01") ("xyz")).sessionClosed = false ∧
    (start none [] ("2017-01-01")).sessionClosed = true ∧
    (start none exDb ("2017-01-01")).sessionClosed = true ∧
    (start (some ("boom")) exDb ("2017-01-01")).sessionClosed = true ∧
    (start_end none exDb ("2017-01-01") ("2017-12-31")).sessionClosed = true ∧
    (precipitation none []).sessionClosed = true ∧
    (precipitation none exDb).sessionClosed = true ∧
    (precipitation (some ("boom")) exDb).sessionClosed = true ∧
    (tobs none []).sessionClosed = true ∧
    (stations none []).sessionClosed = true := by
  refine ⟨by decide, by decide, by decide, by decide, by decide, by decide, rfl,
    by decide, rfl, rfl, rfl⟩

/-! ### Claims C4 and C7: the precipitation window and dict -/

/-- Inversion of a successful `precipitation` run: the body is the dict
built from the sorted, cutoff-filtered rows. -/
theorem precipitation_ok_body (db : List Row) (mx c : String)
    (h1 : maxDate db = some mx) (h2 : cutoff365 mx = some c)
    (body : List (String × Option ℚ))
    (h3 : (precipitation none db).result = .ok body) :
    body = pyDict ((sortByDate (db.filter (fun r => strLe c r.date))).map
      (fun r => (r.date, r.prcp))) := by
  unfold precipitation at h3
  rw [h1] at h3
  dsimp only at h3
  rw [h2] at h3
  dsimp only at h3
  exact (RouteResult.ok.inj h3).symm

/-- C4: for a non-empty dataset, the keys of the returned mapping are
exactly the observation dates `d` with `d >= cutoff`, where the cutoff is
the maximum date of the dataset minus 365 days (computed by `cutoff365`);
the boundary date equal to the cutoff is included, and for the max date
`"2017-08-23"` the cutoff is `"2016-08-23"`. -/
theorem precipitation_window (db : List Row) (mx c : String)
    (h1 : maxDate db = some mx) (h2 : cutoff365 mx = some c)
    (body : List (String × Option ℚ))
    (h3 : (precipitation none db).result = .ok body) :
    ((∃ r ∈ db, r.date = mx) ∧ (∀ r ∈ db, strLe r.date mx = true)) ∧
    (∀ d : String, (∃ v, (d, v) ∈ body) ↔
      ((∃ r ∈ db, r.date = d) ∧ strLe c d = true)) ∧
    cutoff365 ("2017-08-23") = some ("2016-08-23") := by
  have hb := precipitation_ok_body db mx c h1 h2 body h3
  refine ⟨maxDate_spec db mx h1, ?_, by decide⟩
  intro d
  constructor
  · rintro ⟨v, hv⟩
    have hd : d ∈ body.map Prod.fst := by
      simpa using List.mem_map_of_mem Prod.fst hv
    rw [hb, mem_keys_pyDict] at hd
    rcases List.mem_map.mp hd with ⟨q, hq, hq1⟩
    rcases List.mem_map.mp hq with ⟨r, hr, hrq⟩
    have hr2 : r ∈ db.filter (fun r => strLe c r.date) := by
      unfold sortByDate at hr
      exact (List.mem_insertionSort dateLE).mp hr
    have hr3 := List.mem_filter.mp hr2
    have hdate : r.date = d := by
      rw [← hq1, ← hrq]
    exact ⟨⟨r, hr3.1, hdate⟩, by rw [← hdate]; exact hr3.2⟩
  · rintro ⟨⟨r, hr, hrd⟩, hcd⟩
    have hmemf : r ∈ db.filter (fun r => strLe c r.date) :=
      List.mem_filter.mpr ⟨hr, by rw [hrd]; exact hcd⟩
    have hmems : r ∈ sortByDate (db.filter (fun r => strLe c r.date)) := by
      unfold sortByDate
      exact (List.mem_insertionSort dateLE).mpr hmemf
    have hkey : d ∈ body.map Prod.fst := by
      rw [hb, mem_keys_pyDict]
      refine List.mem_map.mpr ⟨(r.date, r.prcp), List.mem_map_of_mem _ hmems, hrd⟩
    rcases List.mem_map.mp hkey with ⟨q, hq, hq1⟩
    refine ⟨q.2, ?_⟩
    rw [← hq1]
    simpa using hq

/-- Witness for C4 on the spec scenario dataset: max date `"2017-08-23"`,
cutoff `"2016-08-23"`; a key equal to the cutoff is present, the day before
is absent. -/
theorem precipitation_window_witness :
    (maxDate exDb = some ("2017-08-23") ∧
      cutoff365 ("2017-08-23") = some ("2016-08-23") ∧
      (precipitation none exDb).result =
        .ok [(("2016-08-23" : String), some ((7 : ℚ) / 4)),
             (("2017-08-23" : String), (none : Option ℚ))]) ∧
    (((∃ r ∈ exDb, r.date = ("2017-08-23" : String)) ∧
      (∀ r ∈ exDb, strLe r.date ("2017-08-23") = true)) ∧
    (∀ d : String,
      (∃ v, (d, v) ∈ [(("2016-08-23" : String), some ((7 : ℚ) / 4)),
                      (("2017-08-23" : String), (none : Option ℚ))]) ↔
      ((∃ r ∈ exDb, r.date = d) ∧ strLe ("2016-08-23") d = true)) ∧
    cutoff365 ("2017-08-23") = some ("2016-08-23")) := by
  have hmax : maxDate exDb = some ("2017-08-23") := by decide
  have hcut : cutoff365 ("2017-08-23") = some ("2016-08-23") := by decide
  have hres : (precipitation none exDb).result =
      .ok [(("2016-08-23" : String), some ((7 : ℚ) / 4)),
           (("2017-08-23" : String), (none : Option ℚ))] := by
    with_unfolding_all decide
  exact ⟨⟨hmax, hcut, hres⟩,
    precipitation_window exDb ("2017-08-23") ("2016-08-23") hmax hcut _ hres⟩

/-- C7: the value the returned mapping holds for a date is the
precipitation of the LAST row with that date in the ascending-date
iteration order of the query result (last-write-wins, key is the date
only). -/
theorem precipitation_last_write_wins (db : List Row) (mx c : String)
    (h1 : maxDate db = some mx) (h2 : cutoff365 mx = some c)
    (body : List (String × Option ℚ))
    (h3 : (precipitation none db).result = .ok body) :
    ∀ d : String,
      dictLookup body d =
        ((((sortByDate (db.filter (fun r => strLe c r.date))).map
            (fun r => (r.date, r.prcp))).reverse.find? (fun q => q.1 == d)).map
          (fun q => q.2)) := by
  intro d
  rw [precipitation_ok_body db mx c h1 h2 body h3, dictLookup_pyDict]

/-- Witness for C7: on the example dataset two stations report on
`"2016-08-23"`; the mapping holds the precipitation of the later row in
iteration order. -/
theorem precipitation_last_write_wins_witness :
    (maxDate exDb = some ("2017-08-23") ∧
      cutoff365 ("2017-08-23") = some ("2016-08-23") ∧
      (precipitation none exDb).result =
        .ok [(("2016-08-23" : String), some ((7 : ℚ) / 4)),
             (("2017-08-23" : String), (none : Option ℚ))]) ∧
    dictLookup [(("2016-08-23" : String), some ((7 : ℚ) / 4)),
                (("2017-08-23" : String), (none : Option ℚ))] ("2016-08-23") =
      ((((sortByDate (exDb.filter (fun r => strLe ("2016-08-23") r.date))).map
          (fun r => (r.date, r.prcp))).reverse.find?
            (fun q => q.1 == ("2016-08-23" : String))).map
        (fun q => q.2)) := by
  have hmax : maxDate exDb = some ("2017-08-23") := by decide
  have hcut : cutoff365 ("2017-08-23") = some ("2016-08-23") := by decide
  have hres : (precipitation none exDb).result =
      .ok [(("2016-08-23" : String), some ((7 : ℚ) / 4)),
           (("2017-08-23" : String), (none : Option ℚ))] := by
    with_unfolding_all decide
  exact ⟨⟨hmax, hcut, hres⟩,
    precipitation_last_write_wins exDb ("2017-08-23") ("2016-08-23") hmax hcut _ hres
      ("2016-08-23")⟩

/-! ### Claim C5 -/

/-- C5, counterexample: with a single observation whose temperature is
`0.06` (not a multiple of `0.1`), `get_stats_from` returns
`TMIN = TMAX = 0.06` but `TAVG = round(0.06, 1) = 0.1 > TMAX`, so
`TMIN <= TAVG <= TMAX` fails as stated. -/
theorem stats_bounds_counterexample :
    (start none cexDb ("2017-01-01")).result =
      .ok ⟨3 / 50, 1 / 10, 3 / 50⟩ ∧
    ¬ ((3 / 50 : ℚ) ≤ 1 / 10 ∧ (1 / 10 : ℚ) ≤ 3 / 50) := by
  constructor
  · with_unfolding_all decide
  · with_unfolding_all decide

/-- C5 (amended): whenever every temperature in the dataset is an integer
multiple of `0.1` (in particular an integer, as in the underlying dataset),
a successful `get_stats_from` response satisfies `TMIN <= TAVG <= TMAX`;
for temperatures off that grid, rounding the average to one decimal place
can leave the `[TMIN, TMAX]` interval. -/
theorem stats_bounds_tenths (db : List Row) (s : String) (st : Stats)
    (ht : ∀ r ∈ db, ∃ k : ℤ, r.tobs = (k : ℚ) / 10)
    (h : (start none db s).result = .ok st) :
    st.TMIN ≤ st.TAVG ∧ st.TAVG ≤ st.TMAX := by
  unfold start at h
  by_cases hv : is_valid_date s = false
  · rw [if_pos hv] at h
    simp at h
  · rw [if_neg hv] at h
    dsimp only at h
    cases hl : (db.filter (fun r => strLe s r.date)).map (fun r => r.tobs) with
    | nil =>
      rw [hl, statsResult_nil] at h
      simp at h
    | cons x xs =>
      rw [hl, statsResult_cons] at h
      have hst : st = ⟨xs.foldl min x,
          round1 ((x :: xs).sum / (((x :: xs).length : ℕ) : ℚ)), xs.foldl max x⟩ :=
        (RouteResult.ok.inj h).symm
      have htenth : ∀ y ∈ x :: xs, ∃ k : ℤ, y = (k : ℚ) / 10 := by
        intro y hy
        rw [← hl] at hy
        rcases List.mem_map.mp hy with ⟨r, hr, hry⟩
        rcases ht r (List.mem_filter.mp hr).1 with ⟨k, hk⟩
        exact ⟨k, by rw [← hry, hk]⟩
      rcases htenth (xs.foldl min x) (aggMin_mem (x :: xs) _ rfl) with ⟨k, hk⟩
      rcases htenth (xs.foldl max x) (aggMax_mem (x :: xs) _ rfl) with ⟨j, hj⟩
      obtain ⟨hlow, hhigh⟩ :=
        aggAvg_between (x :: xs) (xs.foldl min x)
          ((x :: xs).sum / (((x :: xs).length : ℕ) : ℚ)) (xs.foldl max x) rfl rfl rfl
      obtain ⟨hb1, hb2⟩ :=
        round1_between k j ((x :: xs).sum / (((x :: xs).length : ℕ) : ℚ))
          (by rw [← hk]; exact hlow) (by rw [← hj]; exact hhigh)
      rw [hst]
      refine ⟨?_, ?_⟩
      · show xs.foldl min x ≤ round1 ((x :: xs).sum / (((x :: xs).length : ℕ) : ℚ))
        rw [hk]
        exact hb1
      · show round1 ((x :: xs).sum / (((x :: xs).length : ℕ) : ℚ)) ≤ xs.foldl max x
        rw [hj]
        exact hb2

/-- Witness for the C5 amended theorem: integer temperatures, a successful
response with `TMIN = 70`, `TAVG = 74.5`, `TMAX = 81`. -/
theorem stats_bounds_tenths_witness :
    ((∀ r ∈ exDb, ∃ k : ℤ, r.tobs = (k : ℚ) / 10) ∧
      (start none exDb ("2016-01-01")).result = .ok ⟨70, 149 / 2, 81⟩) ∧
    ((⟨70, 149 / 2, 81⟩ : Stats).TMIN ≤ (⟨70, 149 / 2, 81⟩ : Stats).TAVG ∧
      (⟨70, 149 / 2, 81⟩ : Stats).TAVG ≤ (⟨70, 149 / 2, 81⟩ : Stats).TMAX) := by
  have ht : ∀ r ∈ exDb, ∃ k : ℤ, r.tobs = (k : ℚ) / 10 := by
    intro r hr
    unfold exDb at hr
    rcases List.mem_cons.mp hr with h | hr
    · exact ⟨710, by rw [h]; norm_num⟩
    rcases List.mem_cons.mp hr with h | hr
    · exact ⟨700, by rw [h]; norm_num⟩
    rcases List.mem_cons.mp hr with h | hr
    · exact ⟨760, by rw [h]; norm_num⟩
    rcases List.mem_cons.mp hr with h | hr
    · exact ⟨810, by rw [h]; norm_num⟩
    · cases hr
  have hres : (start none exDb ("2016-01-01")).result = .ok ⟨70, 149 / 2, 81⟩ := by
    with_unfolding_all decide
  exact ⟨⟨ht, hres⟩, stats_bounds_tenths exDb ("2016-01-01") ⟨70, 149 / 2, 81⟩ ht hres⟩

/-! ### Claim C6 -/

/-- C6: for valid dates with `start > end` (in the comparison order the
query itself uses on the date strings), the inclusive filter
`start <= date <= end` matches no rows and `get_stats_range` returns the
404 response with the range message. -/
theorem range_start_gt_end (db : List Row) (s e : String)
    (hs : is_valid_date s = true) (he : is_valid_date e = true)
    (hlt : strLt e s = true) :
    (start_end none db s e).result =
      .errJson 404 ("No data found for the given date range.") := by
  unfold start_end
  rw [if_neg (by simp [hs, he])]
  have hse : strLe s e = false := by
    unfold strLt at hlt
    simpa using hlt
  have hfil : db.filter (fun r => strLe s r.date && strLe r.date e) = [] := by
    apply List.filter_eq_nil_iff.mpr
    intro r hr hcond
    have hcond' : strLe s r.date = true ∧ strLe r.date e = true := by simpa using hcond
    rw [strLe_trans hcond'.1 hcond'.2] at hse
    cases hse
  rw [hfil]
  rfl

/-- Witness for C6 at a concrete reversed range. -/
theorem range_start_gt_end_witness :
    (is_valid_date ("2017-01-02") = true ∧ is_valid_date ("2017-01-01") = true ∧
      strLt ("2017-01-01") ("2017-01-02") = true) ∧
    (start_end none exDb ("2017-01-02") ("2017-01-01")).result =
      .errJson 404 ("No data found for the given date range.") :=
  ⟨⟨by decide, by decide, by decide⟩,
    range_start_gt_end exDb ("2017-01-02") ("2017-01-01") (by decide) (by decide)
      (by decide)⟩

/-! ### Claim C8 -/

/-- C8: a successful `get_temperature_observations` response lists exactly
the `(date, temperature)` rows of a station of maximal observation count
(some tied station when tied) whose date is at least the 365-day cutoff,
ordered by date ascending, with multiple rows per date all preserved (the
body is a permutation of the undeduplicated filtered rows). -/
theorem tobs_most_active_window (db : List Row) (m mx c : String)
    (h1 : most_active_station db = some m) (h2 : maxDate db = some mx)
    (h3 : cutoff365 mx = some c) (body : List (String × ℚ))
    (h4 : (tobs none db).result = .ok body) :
    (m ∈ db.map (fun r => r.station)) ∧
    (∀ s ∈ db.map (fun r => r.station), stationCount db s ≤ stationCount db m) ∧
    body.Perm ((db.filter (fun r => r.station == m && strLe c r.date)).map
      (fun r => (r.date, r.tobs))) ∧
    List.Pairwise (fun a b : String × ℚ => strLe a.1 b.1 = true) body := by
  have hargmax : m ∈ (db.map (fun r => r.station)).argmax (stationCount db) := h1
  have hb : body = (sortByDate (db.filter (fun r => r.station == m && strLe c r.date))).map
      (fun r => (r.date, r.tobs)) := by
    unfold tobs at h4
    rw [show most_active_station db = some m from h1] at h4
    dsimp only at h4
    rw [h2] at h4
    dsimp only at h4
    rw [h3] at h4
    dsimp only at h4
    exact (RouteResult.ok.inj h4).symm
  refine ⟨List.argmax_mem hargmax, ?_, ?_, ?_⟩
  · intro s hs
    exact List.le_of_mem_argmax hs hargmax
  · rw [hb]
    exact (List.perm_insertionSort dateLE _).map _
  · rw [hb]
    haveI : IsTotal Row dateLE := ⟨fun a b => strLe_total a.date b.date⟩
    haveI : IsTrans Row dateLE := ⟨fun _ _ _ hab hbc => strLe_trans hab hbc⟩
    exact List.Pairwise.map _ (fun _ _ hab => hab)
      (List.sorted_insertionSort dateLE (db.filter (fun r => r.station == m && strLe c r.date)))

/-- Witness for C8 on the example dataset: the most active station is
`"USC1"` (3 rows against 1), and the body keeps its two in-window rows in
date order. -/
theorem tobs_most_active_window_witness :
    (most_active_station exDb = some ("USC1") ∧
      maxDate exDb = some ("2017-08-23") ∧
      cutoff365 ("2017-08-23") = some ("2016-08-23") ∧
      (tobs none exDb).result =
        .ok [(("2016-08-23" : String), (76 : ℚ)), (("2017-08-23" : String), (81 : ℚ))]) ∧
    ((("USC1" : String) ∈ exDb.map (fun r => r.station)) ∧
    (∀ s ∈ exDb.map (fun r => r.station),
      stationCount exDb s ≤ stationCount exDb ("USC1")) ∧
    ([(("2016-08-23" : String), (76 : ℚ)), (("2017-08-23" : String), (81 : ℚ))]).Perm
      ((exDb.filter (fun r => r.station == ("USC1" : String) &&
          strLe ("2016-08-23") r.date)).map (fun r => (r.date, r.tobs))) ∧
    List.Pairwise (fun a b : String × ℚ => strLe a.1 b.1 = true)
      [(("2016-08-23" : String), (76 : ℚ)), (("2017-08-23" : String), (81 : ℚ))]) := by
  have h1 : most_active_station exDb = some ("USC1") := by decide
  have h2 : maxDate exDb = some ("2017-08-23") := by decide
  have h3 : cutoff365 ("2017-08-23") = some ("2016-08-23") := by decide
  have h4 : (tobs none exDb).result =
      .ok [(("2016-08-23" : String), (76 : ℚ)), (("2017-08-23" : String), (81 : ℚ))] := by
    with_unfolding_all decide
  exact ⟨⟨h1, h2, h3, h4⟩,
    tobs_most_active_window exDb ("USC1") ("2017-08-23") ("2016-08-23") h1 h2 h3 _ h4⟩

/-! ### Claim C9 -/

/-- C9: `list_stations` returns the station column of the station table
as-is (storage order); when the station identifiers of the table are
pairwise distinct — the data-model invariant, since the query applies no
`DISTINCT` of its own — the response has no duplicates and equals, as a
set, the distinct station identifiers of the dataset. -/
theorem stations_distinct (ids : List String) (h : ids.Nodup) :
    (stations none ids).result = .ok ids ∧ ids.Nodup ∧
      ∀ s : String, s ∈ ids ↔ s ∈ ids.dedup := by
  refine ⟨rfl, h, ?_⟩
  intro s
  exact List.mem_dedup.symm

/-- Witness for C9 at a concrete two-station table. -/
theorem stations_distinct_witness :
    ([("USC1"), ("USC2")] : List String).Nodup ∧
    ((stations none [("USC1"), ("USC2")]).result = .ok [("USC1"), ("USC2")] ∧
      ([("USC1"), ("USC2")] : List String).Nodup ∧
      ∀ s : String, s ∈ ([("USC1"), ("USC2")] : List String) ↔
        s ∈ ([("USC1"), ("USC2")] : List String).dedup) :=
  ⟨by decide, stations_distinct [("USC1"), ("USC2")] (by decide)⟩

/-! ### Claim C10 -/

/-- C10: on an empty measurement table both `get_precipitation` and
`get_temperature_observations` fail at `first()[0]` — `first()` is `None`
and subscripting it raises a `TypeError` that the `except SQLAlchemyError`
clause does not catch — so neither the query-and-serialize logic nor the
500 envelope is reached and no JSON response of the documented shape is
produced (the `finally:` still closes the session). -/
theorem empty_table_uncaught :
    precipitation none [] = ⟨.uncaught tyErrMsg, true⟩ ∧
    tobs none [] = ⟨.uncaught tyErrMsg, true⟩ := by
  exact ⟨rfl, rfl⟩

end SurfsUp
